import Mathlib

/-!
Verification of the password-generator core (file password_generator.py,
class PasswordGenerator).  The two core operations are embedded as Lean
functions over `List Char`:

* `generate length use_upper use_lower use_numbers use_symbols r` embeds
  `PasswordGenerator.generate`.  The call `secrets.choice(alphabet)` made at
  step `i` is modelled as `alphabet[r i % alphabet.length]` for an arbitrary
  index oracle `r : Nat -> Nat`; `secrets.randbelow` always returns an index
  below the length, which the reduction modulo the length represents, so
  every possible sequence of draws of the running program corresponds to some
  oracle.  `generateE` is the same function with a fallible oracle
  (`Except` instead of plain values), used to reason about propagation of
  randomness-source failures.

* `calculate_strength` embeds `PasswordGenerator.calculate_strength`.  The
  character predicates `str.isupper`, `str.islower`, `str.isdigit` of Python
  are Unicode-aware; they are modelled by full tables of code-point intervals
  enumerated from the CPython implementation (Unicode 14.0.0), so the model
  agrees with the running program on every code point.  The
  floating-point comparison `len(password) * math.log2(pool_size) < T` is
  modelled exactly by the integer comparison `pool_size ^ len < 2 ^ T`; the
  lemma `pow_lt_two_pow_iff_entropy` proves this equal to the real-valued
  entropy comparison, so no floating-point rounding is modelled.
-/

set_option maxRecDepth 100000

namespace PasswordGenerator

/-- Code points 65..90, the constant `string.ascii_uppercase` (26 letters). -/
def ascii_uppercase : List Char := (List.range 26).map (fun n => Char.ofNat (65 + n))

/-- Code points 97..122, the constant `string.ascii_lowercase` (26 letters). -/
def ascii_lowercase : List Char := (List.range 26).map (fun n => Char.ofNat (97 + n))

/-- Code points 48..57, the constant `string.digits` (10 digits). -/
def digits : List Char := (List.range 10).map (fun n => Char.ofNat (48 + n))

/-- The constant `string.punctuation`: the 32 ASCII punctuation characters,
code points 33..47, 58..64, 91..96 and 123..126. -/
def punctuation : List Char :=
  ((List.range 128).filter (fun n =>
    (33 ≤ n && n ≤ 47) || (58 ≤ n && n ≤ 64) ||
      (91 ≤ n && n ≤ 96) || (123 ≤ n && n ≤ 126))).map Char.ofNat

/-- Lines 25-33 of `PasswordGenerator.generate`: starting from the empty
string, append each enabled class in the fixed order upper, lower, numbers,
symbols. -/
def buildAlphabet (use_upper use_lower use_numbers use_symbols : Bool) : List Char :=
  let alphabet : List Char := []
  let alphabet := if use_upper then alphabet ++ ascii_uppercase else alphabet
  let alphabet := if use_lower then alphabet ++ ascii_lowercase else alphabet
  let alphabet := if use_numbers then alphabet ++ digits else alphabet
  let alphabet := if use_symbols then alphabet ++ punctuation else alphabet
  alphabet

/-- `PasswordGenerator.generate` (lines 20-35).  The Python `length` is an
arbitrary integer; `range(length)` is empty for `length <= 0`, which
`Int.toNat` reproduces.  The oracle `r` supplies the index drawn by
`secrets.choice` at each step (see the file header). -/
def generate (length : Int) (use_upper use_lower use_numbers use_symbols : Bool)
    (r : Nat → Nat) : List Char :=
  if !(use_upper || use_lower || use_numbers || use_symbols) then []
  else
    let alphabet := buildAlphabet use_upper use_lower use_numbers use_symbols
    (List.range length.toNat).map (fun i => alphabet.getD (r i % alphabet.length) 'A')

/-- Closed intervals of the code points on which the Python builtin str.isupper holds for a single character, enumerated from the CPython implementation (Unicode 14.0.0): the cased characters whose case is uppercase. -/
def uppercaseRanges : List (Nat × Nat) := [
  (65, 90), (192, 214), (216, 222), (256, 256), (258, 258), (260, 260),
  (262, 262), (264, 264), (266, 266), (268, 268), (270, 270), (272, 272),
  (274, 274), (276, 276), (278, 278), (280, 280), (282, 282), (284, 284),
  (286, 286), (288, 288), (290, 290), (292, 292), (294, 294), (296, 296),
  (298, 298), (300, 300), (302, 302), (304, 304), (306, 306), (308, 308),
  (310, 310), (313, 313), (315, 315), (317, 317), (319, 319), (321, 321),
  (323, 323), (325, 325), (327, 327), (330, 330), (332, 332), (334, 334),
  (336, 336), (338, 338), (340, 340), (342, 342), (344, 344), (346, 346),
  (348, 348), (350, 350), (352, 352), (354, 354), (356, 356), (358, 358),
  (360, 360), (362, 362), (364, 364), (366, 366), (368, 368), (370, 370),
  (372, 372), (374, 374), (376, 377), (379, 379), (381, 381), (385, 386),
  (388, 388), (390, 391), (393, 395), (398, 401), (403, 404), (406, 408),
  (412, 413), (415, 416), (418, 418), (420, 420), (422, 423), (425, 425),
  (428, 428), (430, 431), (433, 435), (437, 437), (439, 440), (444, 444),
  (452, 452), (455, 455), (458, 458), (461, 461), (463, 463), (465, 465),
  (467, 467), (469, 469), (471, 471), (473, 473), (475, 475), (478, 478),
  (480, 480), (482, 482), (484, 484), (486, 486), (488, 488), (490, 490),
  (492, 492), (494, 494), (497, 497), (500, 500), (502, 504), (506, 506),
  (508, 508), (510, 510), (512, 512), (514, 514), (516, 516), (518, 518),
  (520, 520), (522, 522), (524, 524), (526, 526), (528, 528), (530, 530),
  (532, 532), (534, 534), (536, 536), (538, 538), (540, 540), (542, 542),
  (544, 544), (546, 546), (548, 548), (550, 550), (552, 552), (554, 554),
  (556, 556), (558, 558), (560, 560), (562, 562), (570, 571), (573, 574),
  (577, 577), (579, 582), (584, 584), (586, 586), (588, 588), (590, 590),
  (880, 880), (882, 882), (886, 886), (895, 895), (902, 902), (904, 906),
  (908, 908), (910, 911), (913, 929), (931, 939), (975, 975), (978, 980),
  (984, 984), (986, 986), (988, 988), (990, 990), (992, 992), (994, 994),
  (996, 996), (998, 998), (1000, 1000), (1002, 1002), (1004, 1004), (1006, 1006),
  (1012, 1012), (1015, 1015), (1017, 1018), (1021, 1071), (1120, 1120), (1122, 1122),
  (1124, 1124), (1126, 1126), (1128, 1128), (1130, 1130), (1132, 1132), (1134, 1134),
  (1136, 1136), (1138, 1138), (1140, 1140), (1142, 1142), (1144, 1144), (1146, 1146),
  (1148, 1148), (1150, 1150), (1152, 1152), (1162, 1162), (1164, 1164), (1166, 1166),
  (1168, 1168), (1170, 1170), (1172, 1172), (1174, 1174), (1176, 1176), (1178, 1178),
  (1180, 1180), (1182, 1182), (1184, 1184), (1186, 1186), (1188, 1188), (1190, 1190),
  (1192, 1192), (1194, 1194), (1196, 1196), (1198, 1198), (1200, 1200), (1202, 1202),
  (1204, 1204), (1206, 1206), (1208, 1208), (1210, 1210), (1212, 1212), (1214, 1214),
  (1216, 1217), (1219, 1219), (1221, 1221), (1223, 1223), (1225, 1225), (1227, 1227),
  (1229, 1229), (1232, 1232), (1234, 1234), (1236, 1236), (1238, 1238), (1240, 1240),
  (1242, 1242), (1244, 1244), (1246, 1246), (1248, 1248), (1250, 1250), (1252, 1252),
  (1254, 1254), (1256, 1256), (1258, 1258), (1260, 1260), (1262, 1262), (1264, 1264),
  (1266, 1266), (1268, 1268), (1270, 1270), (1272, 1272), (1274, 1274), (1276, 1276),
  (1278, 1278), (1280, 1280), (1282, 1282), (1284, 1284), (1286, 1286), (1288, 1288),
  (1290, 1290), (1292, 1292), (1294, 1294), (1296, 1296), (1298, 1298), (1300, 1300),
  (1302, 1302), (1304, 1304), (1306, 1306), (1308, 1308), (1310, 1310), (1312, 1312),
  (1314, 1314), (1316, 1316), (1318, 1318), (1320, 1320), (1322, 1322), (1324, 1324),
  (1326, 1326), (1329, 1366), (4256, 4293), (4295, 4295), (4301, 4301), (5024, 5109),
  (7312, 7354), (7357, 7359), (7680, 7680), (7682, 7682), (7684, 7684), (7686, 7686),
  (7688, 7688), (7690, 7690), (7692, 7692), (7694, 7694), (7696, 7696), (7698, 7698),
  (7700, 7700), (7702, 7702), (7704, 7704), (7706, 7706), (7708, 7708), (7710, 7710),
  (7712, 7712), (7714, 7714), (7716, 7716), (7718, 7718), (7720, 7720), (7722, 7722),
  (7724, 7724), (7726, 7726), (7728, 7728), (7730, 7730), (7732, 7732), (7734, 7734),
  (7736, 7736), (7738, 7738), (7740, 7740), (7742, 7742), (7744, 7744), (7746, 7746),
  (7748, 7748), (7750, 7750), (7752, 7752), (7754, 7754), (7756, 7756), (7758, 7758),
  (7760, 7760), (7762, 7762), (7764, 7764), (7766, 7766), (7768, 7768), (7770, 7770),
  (7772, 7772), (7774, 7774), (7776, 7776), (7778, 7778), (7780, 7780), (7782, 7782),
  (7784, 7784), (7786, 7786), (7788, 7788), (7790, 7790), (7792, 7792), (7794, 7794),
  (7796, 7796), (7798, 7798), (7800, 7800), (7802, 7802), (7804, 7804), (7806, 7806),
  (7808, 7808), (7810, 7810), (7812, 7812), (7814, 7814), (7816, 7816), (7818, 7818),
  (7820, 7820), (7822, 7822), (7824, 7824), (7826, 7826), (7828, 7828), (7838, 7838),
  (7840, 7840), (7842, 7842), (7844, 7844), (7846, 7846), (7848, 7848), (7850, 7850),
  (7852, 7852), (7854, 7854), (7856, 7856), (7858, 7858), (7860, 7860), (7862, 7862),
  (7864, 7864), (7866, 7866), (7868, 7868), (7870, 7870), (7872, 7872), (7874, 7874),
  (7876, 7876), (7878, 7878), (7880, 7880), (7882, 7882), (7884, 7884), (7886, 7886),
  (7888, 7888), (7890, 7890), (7892, 7892), (7894, 7894), (7896, 7896), (7898, 7898),
  (7900, 7900), (7902, 7902), (7904, 7904), (7906, 7906), (7908, 7908), (7910, 7910),
  (7912, 7912), (7914, 7914), (7916, 7916), (7918, 7918), (7920, 7920), (7922, 7922),
  (7924, 7924), (7926, 7926), (7928, 7928), (7930, 7930), (7932, 7932), (7934, 7934),
  (7944, 7951), (7960, 7965), (7976, 7983), (7992, 7999), (8008, 8013), (8025, 8025),
  (8027, 8027), (8029, 8029), (8031, 8031), (8040, 8047), (8120, 8123), (8136, 8139),
  (8152, 8155), (8168, 8172), (8184, 8187), (8450, 8450), (8455, 8455), (8459, 8461),
  (8464, 8466), (8469, 8469), (8473, 8477), (8484, 8484), (8486, 8486), (8488, 8488),
  (8490, 8493), (8496, 8499), (8510, 8511), (8517, 8517), (8544, 8559), (8579, 8579),
  (9398, 9423), (11264, 11311), (11360, 11360), (11362, 11364), (11367, 11367), (11369, 11369),
  (11371, 11371), (11373, 11376), (11378, 11378), (11381, 11381), (11390, 11392), (11394, 11394),
  (11396, 11396), (11398, 11398), (11400, 11400), (11402, 11402), (11404, 11404), (11406, 11406),
  (11408, 11408), (11410, 11410), (11412, 11412), (11414, 11414), (11416, 11416), (11418, 11418),
  (11420, 11420), (11422, 11422), (11424, 11424), (11426, 11426), (11428, 11428), (11430, 11430),
  (11432, 11432), (11434, 11434), (11436, 11436), (11438, 11438), (11440, 11440), (11442, 11442),
  (11444, 11444), (11446, 11446), (11448, 11448), (11450, 11450), (11452, 11452), (11454, 11454),
  (11456, 11456), (11458, 11458), (11460, 11460), (11462, 11462), (11464, 11464), (11466, 11466),
  (11468, 11468), (11470, 11470), (11472, 11472), (11474, 11474), (11476, 11476), (11478, 11478),
  (11480, 11480), (11482, 11482), (11484, 11484), (11486, 11486), (11488, 11488), (11490, 11490),
  (11499, 11499), (11501, 11501), (11506, 11506), (42560, 42560), (42562, 42562), (42564, 42564),
  (42566, 42566), (42568, 42568), (42570, 42570), (42572, 42572), (42574, 42574), (42576, 42576),
  (42578, 42578), (42580, 42580), (42582, 42582), (42584, 42584), (42586, 42586), (42588, 42588),
  (42590, 42590), (42592, 42592), (42594, 42594), (42596, 42596), (42598, 42598), (42600, 42600),
  (42602, 42602), (42604, 42604), (42624, 42624), (42626, 42626), (42628, 42628), (42630, 42630),
  (42632, 42632), (42634, 42634), (42636, 42636), (42638, 42638), (42640, 42640), (42642, 42642),
  (42644, 42644), (42646, 42646), (42648, 42648), (42650, 42650), (42786, 42786), (42788, 42788),
  (42790, 42790), (42792, 42792), (42794, 42794), (42796, 42796), (42798, 42798), (42802, 42802),
  (42804, 42804), (42806, 42806), (42808, 42808), (42810, 42810), (42812, 42812), (42814, 42814),
  (42816, 42816), (42818, 42818), (42820, 42820), (42822, 42822), (42824, 42824), (42826, 42826),
  (42828, 42828), (42830, 42830), (42832, 42832), (42834, 42834), (42836, 42836), (42838, 42838),
  (42840, 42840), (42842, 42842), (42844, 42844), (42846, 42846), (42848, 42848), (42850, 42850),
  (42852, 42852), (42854, 42854), (42856, 42856), (42858, 42858), (42860, 42860), (42862, 42862),
  (42873, 42873), (42875, 42875), (42877, 42878), (42880, 42880), (42882, 42882), (42884, 42884),
  (42886, 42886), (42891, 42891), (42893, 42893), (42896, 42896), (42898, 42898), (42902, 42902),
  (42904, 42904), (42906, 42906), (42908, 42908), (42910, 42910), (42912, 42912), (42914, 42914),
  (42916, 42916), (42918, 42918), (42920, 42920), (42922, 42926), (42928, 42932), (42934, 42934),
  (42936, 42936), (42938, 42938), (42940, 42940), (42942, 42942), (42944, 42944), (42946, 42946),
  (42948, 42951), (42953, 42953), (42960, 42960), (42966, 42966), (42968, 42968), (42997, 42997),
  (65313, 65338), (66560, 66599), (66736, 66771), (66928, 66938), (66940, 66954), (66956, 66962),
  (66964, 66965), (68736, 68786), (71840, 71871), (93760, 93791), (119808, 119833), (119860, 119885),
  (119912, 119937), (119964, 119964), (119966, 119967), (119970, 119970), (119973, 119974), (119977, 119980),
  (119982, 119989), (120016, 120041), (120068, 120069), (120071, 120074), (120077, 120084), (120086, 120092),
  (120120, 120121), (120123, 120126), (120128, 120132), (120134, 120134), (120138, 120144), (120172, 120197),
  (120224, 120249), (120276, 120301), (120328, 120353), (120380, 120405), (120432, 120457), (120488, 120512),
  (120546, 120570), (120604, 120628), (120662, 120686), (120720, 120744), (120778, 120778), (125184, 125217),
  (127280, 127305), (127312, 127337), (127344, 127369)]

/-- Closed intervals of the code points on which the Python builtin str.islower holds for a single character, enumerated from the CPython implementation (Unicode 14.0.0): the cased characters whose case is lowercase. -/
def lowercaseRanges : List (Nat × Nat) := [
  (97, 122), (170, 170), (181, 181), (186, 186), (223, 246), (248, 255),
  (257, 257), (259, 259), (261, 261), (263, 263), (265, 265), (267, 267),
  (269, 269), (271, 271), (273, 273), (275, 275), (277, 277), (279, 279),
  (281, 281), (283, 283), (285, 285), (287, 287), (289, 289), (291, 291),
  (293, 293), (295, 295), (297, 297), (299, 299), (301, 301), (303, 303),
  (305, 305), (307, 307), (309, 309), (311, 312), (314, 314), (316, 316),
  (318, 318), (320, 320), (322, 322), (324, 324), (326, 326), (328, 329),
  (331, 331), (333, 333), (335, 335), (337, 337), (339, 339), (341, 341),
  (343, 343), (345, 345), (347, 347), (349, 349), (351, 351), (353, 353),
  (355, 355), (357, 357), (359, 359), (361, 361), (363, 363), (365, 365),
  (367, 367), (369, 369), (371, 371), (373, 373), (375, 375), (378, 378),
  (380, 380), (382, 384), (387, 387), (389, 389), (392, 392), (396, 397),
  (402, 402), (405, 405), (409, 411), (414, 414), (417, 417), (419, 419),
  (421, 421), (424, 424), (426, 427), (429, 429), (432, 432), (436, 436),
  (438, 438), (441, 442), (445, 447), (454, 454), (457, 457), (460, 460),
  (462, 462), (464, 464), (466, 466), (468, 468), (470, 470), (472, 472),
  (474, 474), (476, 477), (479, 479), (481, 481), (483, 483), (485, 485),
  (487, 487), (489, 489), (491, 491), (493, 493), (495, 496), (499, 499),
  (501, 501), (505, 505), (507, 507), (509, 509), (511, 511), (513, 513),
  (515, 515), (517, 517), (519, 519), (521, 521), (523, 523), (525, 525),
  (527, 527), (529, 529), (531, 531), (533, 533), (535, 535), (537, 537),
  (539, 539), (541, 541), (543, 543), (545, 545), (547, 547), (549, 549),
  (551, 551), (553, 553), (555, 555), (557, 557), (559, 559), (561, 561),
  (563, 569), (572, 572), (575, 576), (578, 578), (583, 583), (585, 585),
  (587, 587), (589, 589), (591, 659), (661, 696), (704, 705), (736, 740),
  (837, 837), (881, 881), (883, 883), (887, 887), (890, 893), (912, 912),
  (940, 974), (976, 977), (981, 983), (985, 985), (987, 987), (989, 989),
  (991, 991), (993, 993), (995, 995), (997, 997), (999, 999), (1001, 1001),
  (1003, 1003), (1005, 1005), (1007, 1011), (1013, 1013), (1016, 1016), (1019, 1020),
  (1072, 1119), (1121, 1121), (1123, 1123), (1125, 1125), (1127, 1127), (1129, 1129),
  (1131, 1131), (1133, 1133), (1135, 1135), (1137, 1137), (1139, 1139), (1141, 1141),
  (1143, 1143), (1145, 1145), (1147, 1147), (1149, 1149), (1151, 1151), (1153, 1153),
  (1163, 1163), (1165, 1165), (1167, 1167), (1169, 1169), (1171, 1171), (1173, 1173),
  (1175, 1175), (1177, 1177), (1179, 1179), (1181, 1181), (1183, 1183), (1185, 1185),
  (1187, 1187), (1189, 1189), (1191, 1191), (1193, 1193), (1195, 1195), (1197, 1197),
  (1199, 1199), (1201, 1201), (1203, 1203), (1205, 1205), (1207, 1207), (1209, 1209),
  (1211, 1211), (1213, 1213), (1215, 1215), (1218, 1218), (1220, 1220), (1222, 1222),
  (1224, 1224), (1226, 1226), (1228, 1228), (1230, 1231), (1233, 1233), (1235, 1235),
  (1237, 1237), (1239, 1239), (1241, 1241), (1243, 1243), (1245, 1245), (1247, 1247),
  (1249, 1249), (1251, 1251), (1253, 1253), (1255, 1255), (1257, 1257), (1259, 1259),
  (1261, 1261), (1263, 1263), (1265, 1265), (1267, 1267), (1269, 1269), (1271, 1271),
  (1273, 1273), (1275, 1275), (1277, 1277), (1279, 1279), (1281, 1281), (1283, 1283),
  (1285, 1285), (1287, 1287), (1289, 1289), (1291, 1291), (1293, 1293), (1295, 1295),
  (1297, 1297), (1299, 1299), (1301, 1301), (1303, 1303), (1305, 1305), (1307, 1307),
  (1309, 1309), (1311, 1311), (1313, 1313), (1315, 1315), (1317, 1317), (1319, 1319),
  (1321, 1321), (1323, 1323), (1325, 1325), (1327, 1327), (1376, 1416), (4304, 4346),
  (4349, 4351), (5112, 5117), (7296, 7304), (7424, 7615), (7681, 7681), (7683, 7683),
  (7685, 7685), (7687, 7687), (7689, 7689), (7691, 7691), (7693, 7693), (7695, 7695),
  (7697, 7697), (7699, 7699), (7701, 7701), (7703, 7703), (7705, 7705), (7707, 7707),
  (7709, 7709), (7711, 7711), (7713, 7713), (7715, 7715), (7717, 7717), (7719, 7719),
  (7721, 7721), (7723, 7723), (7725, 7725), (7727, 7727), (7729, 7729), (7731, 7731),
  (7733, 7733), (7735, 7735), (7737, 7737), (7739, 7739), (7741, 7741), (7743, 7743),
  (7745, 7745), (7747, 7747), (7749, 7749), (7751, 7751), (7753, 7753), (7755, 7755),
  (7757, 7757), (7759, 7759), (7761, 7761), (7763, 7763), (7765, 7765), (7767, 7767),
  (7769, 7769), (7771, 7771), (7773, 7773), (7775, 7775), (7777, 7777), (7779, 7779),
  (7781, 7781), (7783, 7783), (7785, 7785), (7787, 7787), (7789, 7789), (7791, 7791),
  (7793, 7793), (7795, 7795), (7797, 7797), (7799, 7799), (7801, 7801), (7803, 7803),
  (7805, 7805), (7807, 7807), (7809, 7809), (7811, 7811), (7813, 7813), (7815, 7815),
  (7817, 7817), (7819, 7819), (7821, 7821), (7823, 7823), (7825, 7825), (7827, 7827),
  (7829, 7837), (7839, 7839), (7841, 7841), (7843, 7843), (7845, 7845), (7847, 7847),
  (7849, 7849), (7851, 7851), (7853, 7853), (7855, 7855), (7857, 7857), (7859, 7859),
  (7861, 7861), (7863, 7863), (7865, 7865), (7867, 7867), (7869, 7869), (7871, 7871),
  (7873, 7873), (7875, 7875), (7877, 7877), (7879, 7879), (7881, 7881), (7883, 7883),
  (7885, 7885), (7887, 7887), (7889, 7889), (7891, 7891), (7893, 7893), (7895, 7895),
  (7897, 7897), (7899, 7899), (7901, 7901), (7903, 7903), (7905, 7905), (7907, 7907),
  (7909, 7909), (7911, 7911), (7913, 7913), (7915, 7915), (7917, 7917), (7919, 7919),
  (7921, 7921), (7923, 7923), (7925, 7925), (7927, 7927), (7929, 7929), (7931, 7931),
  (7933, 7933), (7935, 7943), (7952, 7957), (7968, 7975), (7984, 7991), (8000, 8005),
  (8016, 8023), (8032, 8039), (8048, 8061), (8064, 8071), (8080, 8087), (8096, 8103),
  (8112, 8116), (8118, 8119), (8126, 8126), (8130, 8132), (8134, 8135), (8144, 8147),
  (8150, 8151), (8160, 8167), (8178, 8180), (8182, 8183), (8305, 8305), (8319, 8319),
  (8336, 8348), (8458, 8458), (8462, 8463), (8467, 8467), (8495, 8495), (8500, 8500),
  (8505, 8505), (8508, 8509), (8518, 8521), (8526, 8526), (8560, 8575), (8580, 8580),
  (9424, 9449), (11312, 11359), (11361, 11361), (11365, 11366), (11368, 11368), (11370, 11370),
  (11372, 11372), (11377, 11377), (11379, 11380), (11382, 11389), (11393, 11393), (11395, 11395),
  (11397, 11397), (11399, 11399), (11401, 11401), (11403, 11403), (11405, 11405), (11407, 11407),
  (11409, 11409), (11411, 11411), (11413, 11413), (11415, 11415), (11417, 11417), (11419, 11419),
  (11421, 11421), (11423, 11423), (11425, 11425), (11427, 11427), (11429, 11429), (11431, 11431),
  (11433, 11433), (11435, 11435), (11437, 11437), (11439, 11439), (11441, 11441), (11443, 11443),
  (11445, 11445), (11447, 11447), (11449, 11449), (11451, 11451), (11453, 11453), (11455, 11455),
  (11457, 11457), (11459, 11459), (11461, 11461), (11463, 11463), (11465, 11465), (11467, 11467),
  (11469, 11469), (11471, 11471), (11473, 11473), (11475, 11475), (11477, 11477), (11479, 11479),
  (11481, 11481), (11483, 11483), (11485, 11485), (11487, 11487), (11489, 11489), (11491, 11492),
  (11500, 11500), (11502, 11502), (11507, 11507), (11520, 11557), (11559, 11559), (11565, 11565),
  (42561, 42561), (42563, 42563), (42565, 42565), (42567, 42567), (42569, 42569), (42571, 42571),
  (42573, 42573), (42575, 42575), (42577, 42577), (42579, 42579), (42581, 42581), (42583, 42583),
  (42585, 42585), (42587, 42587), (42589, 42589), (42591, 42591), (42593, 42593), (42595, 42595),
  (42597, 42597), (42599, 42599), (42601, 42601), (42603, 42603), (42605, 42605), (42625, 42625),
  (42627, 42627), (42629, 42629), (42631, 42631), (42633, 42633), (42635, 42635), (42637, 42637),
  (42639, 42639), (42641, 42641), (42643, 42643), (42645, 42645), (42647, 42647), (42649, 42649),
  (42651, 42653), (42787, 42787), (42789, 42789), (42791, 42791), (42793, 42793), (42795, 42795),
  (42797, 42797), (42799, 42801), (42803, 42803), (42805, 42805), (42807, 42807), (42809, 42809),
  (42811, 42811), (42813, 42813), (42815, 42815), (42817, 42817), (42819, 42819), (42821, 42821),
  (42823, 42823), (42825, 42825), (42827, 42827), (42829, 42829), (42831, 42831), (42833, 42833),
  (42835, 42835), (42837, 42837), (42839, 42839), (42841, 42841), (42843, 42843), (42845, 42845),
  (42847, 42847), (42849, 42849), (42851, 42851), (42853, 42853), (42855, 42855), (42857, 42857),
  (42859, 42859), (42861, 42861), (42863, 42872), (42874, 42874), (42876, 42876), (42879, 42879),
  (42881, 42881), (42883, 42883), (42885, 42885), (42887, 42887), (42892, 42892), (42894, 42894),
  (42897, 42897), (42899, 42901), (42903, 42903), (42905, 42905), (42907, 42907), (42909, 42909),
  (42911, 42911), (42913, 42913), (42915, 42915), (42917, 42917), (42919, 42919), (42921, 42921),
  (42927, 42927), (42933, 42933), (42935, 42935), (42937, 42937), (42939, 42939), (42941, 42941),
  (42943, 42943), (42945, 42945), (42947, 42947), (42952, 42952), (42954, 42954), (42961, 42961),
  (42963, 42963), (42965, 42965), (42967, 42967), (42969, 42969), (42998, 42998), (43000, 43002),
  (43824, 43866), (43868, 43880), (43888, 43967), (64256, 64262), (64275, 64279), (65345, 65370),
  (66600, 66639), (66776, 66811), (66967, 66977), (66979, 66993), (66995, 67001), (67003, 67004),
  (67456, 67456), (67459, 67461), (67463, 67504), (67506, 67514), (68800, 68850), (71872, 71903),
  (93792, 93823), (119834, 119859), (119886, 119892), (119894, 119911), (119938, 119963), (119990, 119993),
  (119995, 119995), (119997, 120003), (120005, 120015), (120042, 120067), (120094, 120119), (120146, 120171),
  (120198, 120223), (120250, 120275), (120302, 120327), (120354, 120379), (120406, 120431), (120458, 120485),
  (120514, 120538), (120540, 120545), (120572, 120596), (120598, 120603), (120630, 120654), (120656, 120661),
  (120688, 120712), (120714, 120719), (120746, 120770), (120772, 120777), (120779, 120779), (122624, 122633),
  (122635, 122654), (125218, 125251)]

/-- Closed intervals of the code points on which the Python builtin str.isdigit holds for a single character, enumerated from the CPython implementation (Unicode 14.0.0). -/
def digitRanges : List (Nat × Nat) := [
  (48, 57), (178, 179), (185, 185), (1632, 1641), (1776, 1785), (1984, 1993),
  (2406, 2415), (2534, 2543), (2662, 2671), (2790, 2799), (2918, 2927), (3046, 3055),
  (3174, 3183), (3302, 3311), (3430, 3439), (3558, 3567), (3664, 3673), (3792, 3801),
  (3872, 3881), (4160, 4169), (4240, 4249), (4969, 4977), (6112, 6121), (6160, 6169),
  (6470, 6479), (6608, 6618), (6784, 6793), (6800, 6809), (6992, 7001), (7088, 7097),
  (7232, 7241), (7248, 7257), (8304, 8304), (8308, 8313), (8320, 8329), (9312, 9320),
  (9332, 9340), (9352, 9360), (9450, 9450), (9461, 9469), (9471, 9471), (10102, 10110),
  (10112, 10120), (10122, 10130), (42528, 42537), (43216, 43225), (43264, 43273), (43472, 43481),
  (43504, 43513), (43600, 43609), (44016, 44025), (65296, 65305), (66720, 66729), (68160, 68163),
  (68912, 68921), (69216, 69224), (69714, 69722), (69734, 69743), (69872, 69881), (69942, 69951),
  (70096, 70105), (70384, 70393), (70736, 70745), (70864, 70873), (71248, 71257), (71360, 71369),
  (71472, 71481), (71904, 71913), (72016, 72025), (72784, 72793), (73040, 73049), (73120, 73129),
  (92768, 92777), (92864, 92873), (93008, 93017), (120782, 120831), (123200, 123209), (123632, 123641),
  (125264, 125273), (127232, 127242), (130032, 130041)]

/-- Python `str.isupper` on a single character (line 44 of the source,
`c.isupper()`): membership of the code point in the uppercase table. -/
def pyIsUpper (c : Char) : Bool :=
  uppercaseRanges.any (fun r => r.1 ≤ c.toNat && c.toNat ≤ r.2)

/-- Python `str.islower` on a single character (line 45 of the source,
`c.islower()`): membership of the code point in the lowercase table. -/
def pyIsLower (c : Char) : Bool :=
  lowercaseRanges.any (fun r => r.1 ≤ c.toNat && c.toNat ≤ r.2)

/-- Python `str.isdigit` on a single character (line 46 of the source,
`c.isdigit()`): membership of the code point in the digit table. -/
def pyIsDigit (c : Char) : Bool :=
  digitRanges.any (fun r => r.1 ≤ c.toNat && c.toNat ≤ r.2)

/-- Lines 43-47 of `calculate_strength`: the running `pool_size`
accumulator, one conditional increment per character class. -/
def poolSize (password : List Char) : Nat :=
  let pool_size : Nat := 0
  let pool_size := if password.any pyIsUpper then pool_size + 26 else pool_size
  let pool_size := if password.any pyIsLower then pool_size + 26 else pool_size
  let pool_size := if password.any pyIsDigit then pool_size + 10 else pool_size
  let pool_size := if password.any (fun c => punctuation.contains c) then pool_size + 32
    else pool_size
  pool_size

/-- Lines 52-58 of `calculate_strength`: the threshold cascade on
`entropy = len(password) * math.log2(pool_size)`.  Each comparison
`entropy < T` is modelled exactly by `pool_size ^ length < 2 ^ T`
(equivalent over the reals, see `pow_lt_two_pow_iff_entropy`). -/
def strengthScore (length pool_size : Nat) : Nat × String :=
  if pool_size ^ length < 2 ^ 28 then (0, "Weak")
  else if pool_size ^ length < 2 ^ 36 then (1, "Fair")
  else if pool_size ^ length < 2 ^ 60 then (2, "Good")
  else if pool_size ^ length < 2 ^ 128 then (3, "Strong")
  else (4, "Very Strong")

/-- `PasswordGenerator.calculate_strength` (lines 38-58). -/
def calculate_strength (password : List Char) : Nat × String :=
  if password = [] then (0, "Too Short")
  else if poolSize password = 0 then (0, "Weak")
  else strengthScore password.length (poolSize password)

/-- Specification-side predicate, from the words of the spec: an uppercase
Latin letter (for comparison with the Unicode-aware predicate the code
uses). -/
def isLatinUpper (c : Char) : Bool := 65 ≤ c.toNat && c.toNat ≤ 90

/-- Specification-side predicate, from the words of the spec: a lowercase
Latin letter. -/
def isLatinLower (c : Char) : Bool := 97 ≤ c.toNat && c.toNat ≤ 122

/-- Specification-side predicate, from the words of the spec: a decimal
digit. -/
def isAsciiDigit (c : Char) : Bool := 48 ≤ c.toNat && c.toNat ≤ 57

/-- `PasswordGenerator.generate` with a fallible index oracle: step `i`
either yields the index drawn by `secrets.choice` or raises.  `mapDrawE`
performs the draws of `"".join(secrets.choice(alphabet) for _ in
range(length))` in order; the first raised error aborts the call and is
returned unchanged, exactly as a Python exception propagates (the code has
no try/except). -/
def mapDrawE {ε : Type} (alphabet : List Char) (r : Nat → Except ε Nat) :
    List Nat → Except ε (List Char)
  | [] => Except.ok []
  | i :: is =>
    match r i with
    | Except.error e => Except.error e
    | Except.ok k =>
      match mapDrawE alphabet r is with
      | Except.error e => Except.error e
      | Except.ok cs => Except.ok (alphabet.getD (k % alphabet.length) 'A' :: cs)

/-- `PasswordGenerator.generate` with the fallible oracle (see `mapDrawE`). -/
def generateE {ε : Type} (length : Int) (use_upper use_lower use_numbers use_symbols : Bool)
    (r : Nat → Except ε Nat) : Except ε (List Char) :=
  if !(use_upper || use_lower || use_numbers || use_symbols) then Except.ok []
  else mapDrawE (buildAlphabet use_upper use_lower use_numbers use_symbols) r
    (List.range length.toNat)

/-- Fixed 20-character password drawing on all four classes, used for the
concrete strength example of the spec. -/
def pw20 : List Char := "Aa0!Aa0!Aa0!Aa0!Aa0!".data

/-- Six copies of the Latin-1 capital letter with code point 196, a
non-ASCII uppercase letter. -/
def pwA6 : List Char := List.replicate 6 (Char.ofNat 196)

/-- Concrete fallible oracle whose second draw fails, used as a test
fixture. -/
def rFail : Nat → Except Nat Nat := fun i => if i = 0 then Except.ok 0 else Except.error 7

example : ascii_uppercase = "ABCDEFGHIJKLMNOPQRSTUVWXYZ".data := by decide
example : ascii_lowercase = "abcdefghijklmnopqrstuvwxyz".data := by decide
example : digits = "0123456789".data := by decide
example : punctuation.length = 32 := by decide
example : poolSize pw20 = 94 := by decide
example : calculate_strength pw20 = (4, "Very Strong") := by decide
example : calculate_strength pwA6 = (1, "Fair") := by decide
example : pyIsUpper (Char.ofNat 1046) = true := by decide
example : pyIsLower (Char.ofNat 1078) = true := by decide
example : pyIsDigit (Char.ofNat 1632) = true := by decide
example : pyIsDigit (Char.ofNat 65296) = true := by decide
example : calculate_strength (List.replicate 6 (Char.ofNat 1046)) = (1, "Fair") := by decide
example : calculate_strength (List.replicate 12 (Char.ofNat 33)) = (3, "Strong") := by decide
example : calculate_strength [] = (0, "Too Short") := by decide
example : calculate_strength [' ', ' '] = (0, "Weak") := by decide

/-! Helper lemmas. -/

/-- The sequential `pool_size` accumulator equals the sum of the four
conditional contributions. -/
lemma poolSize_eq (password : List Char) :
    poolSize password =
      (if password.any pyIsUpper then 26 else 0) +
        (if password.any pyIsLower then 26 else 0) +
        (if password.any pyIsDigit then 10 else 0) +
        (if password.any (fun c => punctuation.contains c) then 32 else 0) := by
  simp only [poolSize]
  split_ifs <;> omega

/-- Appending characters can only enable pool contributions, never disable
them. -/
lemma poolSize_le_append (p q : List Char) : poolSize p ≤ poolSize (p ++ q) := by
  rw [poolSize_eq, poolSize_eq]
  have hany : ∀ f : Char → Bool, p.any f = true → (p ++ q).any f = true := by
    intro f h
    rw [List.any_append, h, Bool.true_or]
  have step : ∀ (f : Char → Bool) (k : Nat),
      (if p.any f then k else 0) ≤ (if (p ++ q).any f then k else 0) := by
    intro f k
    by_cases h : p.any f = true
    · rw [if_pos h, if_pos (hany f h)]
    · rw [if_neg h]
      exact Nat.zero_le _
  exact add_le_add (add_le_add (add_le_add (step _ _) (step _ _)) (step _ _)) (step _ _)

/-- On a non-empty password with a non-zero pool, `calculate_strength` is the
threshold cascade. -/
lemma calculate_strength_nonempty (p : List Char) (hne : p ≠ [])
    (hpool : poolSize p ≠ 0) :
    calculate_strength p = strengthScore p.length (poolSize p) := by
  rw [calculate_strength, if_neg hne, if_neg hpool]

/-- The integer comparison used by the embedding is exactly the real-valued
entropy comparison of the source: `pool ^ len < 2 ^ T` holds iff
`len * log2 pool < T`. -/
lemma pow_lt_two_pow_iff_entropy (pool len T : Nat) (hpool : 0 < pool) :
    pool ^ len < 2 ^ T ↔ (len : ℝ) * Real.logb 2 (pool : ℝ) < (T : ℝ) := by
  have hx : (0 : ℝ) < (pool : ℝ) ^ len := by positivity
  rw [← Real.logb_pow, Real.logb_lt_iff_lt_rpow (by norm_num) hx, Real.rpow_natCast]
  exact_mod_cast Iff.rfl

/-- Counterpart of `pow_lt_two_pow_iff_entropy` for the complementary
inequality. -/
lemma two_pow_le_pow_iff_entropy (pool len T : Nat) (hpool : 0 < pool) :
    2 ^ T ≤ pool ^ len ↔ (T : ℝ) ≤ (len : ℝ) * Real.logb 2 (pool : ℝ) := by
  rw [← not_lt, ← not_lt, not_iff_not]
  exact pow_lt_two_pow_iff_entropy pool len T hpool

/-- Reduction of a draw modulo the alphabet length indexes into the
alphabet. -/
lemma getD_mod_mem (l : List Char) (k : Nat) (h : l ≠ []) :
    l.getD (k % l.length) 'A' ∈ l := by
  have hlt : k % l.length < l.length := Nat.mod_lt _ (List.length_pos.mpr h)
  rw [List.getD_eq_getElem l 'A' hlt]
  exact List.getElem_mem hlt

/-- The alphabet is non-empty as soon as one class is enabled. -/
lemma buildAlphabet_ne_nil (u l n s : Bool) (h : (u || l || n || s) = true) :
    buildAlphabet u l n s ≠ [] := by
  cases u <;> cases l <;> cases n <;> cases s <;> first
    | exact absurd h (by decide)
    | decide

/-- The first component of `strengthScore` is monotone in the compared
quantity `pool ^ length`. -/
lemma strengthScore_fst_mono (l1 pool1 l2 pool2 : Nat)
    (h : pool1 ^ l1 ≤ pool2 ^ l2) :
    (strengthScore l1 pool1).1 ≤ (strengthScore l2 pool2).1 := by
  have t28 : (2 : ℕ) ^ 28 = 268435456 := by norm_num
  have t36 : (2 : ℕ) ^ 36 = 68719476736 := by norm_num
  have t60 : (2 : ℕ) ^ 60 = 1152921504606846976 := by norm_num
  have t128 : (2 : ℕ) ^ 128 = 340282366920938463463374607431768211456 := by norm_num
  unfold strengthScore
  rw [t28, t36, t60, t128]
  split_ifs <;> simp <;> omega

/-- With an oracle that never fails, `mapDrawE` performs exactly the draws of
the infallible model. -/
lemma mapDrawE_ok_map {ε : Type} (alphabet : List Char) (r0 : Nat → Nat) :
    ∀ is : List Nat,
      mapDrawE (ε := ε) alphabet (fun i => Except.ok (r0 i)) is =
        Except.ok (is.map (fun i => alphabet.getD (r0 i % alphabet.length) 'A'))
  | [] => rfl
  | i :: is => by
    rw [mapDrawE, mapDrawE_ok_map alphabet r0 is, List.map_cons]

/-- The first failing draw aborts `mapDrawE` with exactly that error. -/
lemma mapDrawE_first_error {ε : Type} (alphabet : List Char) (r : Nat → Except ε Nat)
    (j : Nat) (e : ε) (hfail : r j = Except.error e) :
    ∀ as bs : List Nat, (∀ i ∈ as, ∃ k, r i = Except.ok k) →
      mapDrawE alphabet r (as ++ j :: bs) = Except.error e
  | [], bs, _ => by rw [List.nil_append, mapDrawE, hfail]
  | a :: as, bs, hok => by
    obtain ⟨k, hk⟩ := hok a (List.mem_cons_self a as)
    rw [List.cons_append, mapDrawE, hk,
      mapDrawE_first_error alphabet r j e hfail as bs
        (fun i hi => hok i (List.mem_cons_of_mem a hi))]

/-- Decomposition of `List.range n` around an interior index. -/
lemma range_decomp (j n : Nat) (h : j < n) :
    List.range n = List.range j ++ j :: List.range' (j + 1) (n - j - 1) := by
  rw [List.range_eq_range', List.range_eq_range']
  have h2 : n - j = (n - j - 1) + 1 := by omega
  have h3 : j :: List.range' (j + 1) (n - j - 1) = List.range' j (n - j) := by
    conv_rhs => rw [h2]
    rw [List.range'_succ]
  rw [h3]
  have h4 := List.range'_append 0 j (n - j) 1
  simp only [Nat.zero_add, Nat.one_mul] at h4
  rw [h4]
  congr 1
  omega

/-! Claim theorems. -/

/-- C1: for every class selection with at least one class enabled and every
length L >= 1, `generate` returns exactly L characters, each a member of the
alphabet concatenated from the enabled classes. -/
theorem generate_length_and_mem (length : Int) (u l n s : Bool) (r : Nat → Nat)
    (hcls : (u || l || n || s) = true) (hlen : 1 ≤ length) :
    ((generate length u l n s r).length : Int) = length ∧
      ∀ c ∈ generate length u l n s r, c ∈ buildAlphabet u l n s := by
  have hguard : (!(u || l || n || s)) = false := by rw [hcls]; rfl
  constructor
  · rw [generate, hguard, if_neg (by decide)]
    simp only [List.length_map, List.length_range]
    exact Int.toNat_of_nonneg (by omega)
  · intro c hc
    rw [generate, hguard, if_neg (by decide)] at hc
    simp only [List.mem_map, List.mem_range] at hc
    obtain ⟨i, _, rfl⟩ := hc
    exact getD_mod_mem _ _ (buildAlphabet_ne_nil u l n s hcls)

/-- Witness for C1 at a concrete input: length 3, digits only, an arbitrary
concrete oracle. -/
theorem generate_length_and_mem_witness :
    ((false || false || true || false) = true) ∧ (1 : Int) ≤ 3 ∧
      (((generate 3 false false true false (fun i => i)).length : Int) = 3 ∧
        ∀ c ∈ generate 3 false false true false (fun i => i),
          c ∈ buildAlphabet false false true false) :=
  ⟨rfl, by decide,
    generate_length_and_mem 3 false false true false (fun i => i) rfl (by decide)⟩

/-- C5: the empty password yields exactly (0, Too Short), and no non-empty
password ever yields the label Too Short. -/
theorem too_short_iff_empty (password : List Char) :
    (password = [] → calculate_strength password = (0, "Too Short")) ∧
      (password ≠ [] → (calculate_strength password).2 ≠ "Too Short") := by
  constructor
  · intro h
    rw [calculate_strength, if_pos h]
  · intro h
    rw [calculate_strength, if_neg h]
    by_cases hpool : poolSize password = 0
    · rw [if_pos hpool]
      decide
    · rw [if_neg hpool, strengthScore]
      split_ifs <;> decide

/-- Witness for C5 at concrete inputs: the empty password and a singleton. -/
theorem too_short_iff_empty_witness :
    calculate_strength [] = (0, "Too Short") ∧
      (calculate_strength ['a']).2 ≠ "Too Short" :=
  ⟨(too_short_iff_empty []).1 rfl, (too_short_iff_empty ['a']).2 (by decide)⟩

/-- C6: degenerate input never faults: with no class enabled the result is
empty for every length, and with length <= 0 the result is empty for every
class selection. -/
theorem generate_degenerate_empty (length : Int) (u l n s : Bool) (r : Nat → Nat) :
    ((u || l || n || s) = false → generate length u l n s r = []) ∧
      (length ≤ 0 → generate length u l n s r = []) := by
  constructor
  · intro h
    rw [generate, h]
    rfl
  · intro h
    rw [generate, Int.toNat_of_nonpos h]
    split <;> rfl

/-- Witness for C6 at concrete inputs: positive length with no class, and
negative length with all classes. -/
theorem generate_degenerate_empty_witness :
    generate 5 false false false false (fun _ => 0) = [] ∧
      generate (-3) true true true true (fun _ => 0) = [] :=
  ⟨(generate_degenerate_empty 5 false false false false (fun _ => 0)).1 rfl,
    (generate_degenerate_empty (-3) true true true true (fun _ => 0)).2 (by decide)⟩

/-- C7: the alphabet is the concatenation of the enabled classes in the fixed
order upper, lower, digits, symbols, and with only the digits class enabled
it is exactly the ten decimal digit characters.  Determinism is inherent: the
builder is a pure function of the four flags. -/
theorem buildAlphabet_order_and_digits :
    (∀ u l n s : Bool, buildAlphabet u l n s =
        (if u then ascii_uppercase else []) ++ (if l then ascii_lowercase else []) ++
          (if n then digits else []) ++ (if s then punctuation else [])) ∧
      buildAlphabet false false true false = "0123456789".data := by
  constructor
  · intro u l n s
    cases u <;> cases l <;> cases n <;> cases s <;> simp [buildAlphabet]
  · decide

/-- C2 counterexample: the claim says 10 is added to the pool exactly when
some decimal digit is present; the superscript digit with code point 178
(which Python `str.isdigit` accepts) is not a decimal digit, yet the pool of
the singleton password holding it is 10. -/
theorem pool_decimal_digit_counterexample :
    ([Char.ofNat 178] : List Char) ≠ [] ∧
      ([Char.ofNat 178].any isAsciiDigit) = false ∧
      poolSize [Char.ofNat 178] = 10 := by
  decide

/-- C2 amended: pool contributions are additive, 26/26/10 tied to the
Unicode-aware uppercase/lowercase/digit predicates of Python (not only Latin
letters and decimal digits) and 32 to the ASCII punctuation set; the entropy
of the 20-character four-class example is at least 128 bits and the example
scores (4, Very Strong) with pool 94. -/
theorem poolSize_unicode_classes :
    (∀ password : List Char, poolSize password =
        (if password.any pyIsUpper then 26 else 0) +
          (if password.any pyIsLower then 26 else 0) +
          (if password.any pyIsDigit then 10 else 0) +
          (if password.any (fun c => punctuation.contains c) then 32 else 0)) ∧
      poolSize pw20 = 94 ∧
      (128 : ℝ) ≤ (pw20.length : ℝ) * Real.logb 2 ((poolSize pw20 : ℕ) : ℝ) ∧
      calculate_strength pw20 = (4, "Very Strong") := by
  refine ⟨poolSize_eq, by decide, ?_, by decide⟩
  have h1 : pw20.length = 20 := by decide
  have h2 : poolSize pw20 = 94 := by decide
  rw [h1, h2]
  exact_mod_cast (two_pow_le_pow_iff_entropy 94 20 128 (by norm_num)).mp (by decide)

/-- C3: on a non-empty password with non-zero pool, the score and label are
given by the fixed half-open entropy thresholds with inclusive lower bounds,
where the entropy is the length times the base-2 logarithm of the pool. -/
theorem calculate_strength_thresholds (password : List Char) (hne : password ≠ [])
    (hpool : poolSize password ≠ 0) :
    ((password.length : ℝ) * Real.logb 2 (poolSize password : ℝ) < 28 →
        calculate_strength password = (0, "Weak")) ∧
      ((28 : ℝ) ≤ (password.length : ℝ) * Real.logb 2 (poolSize password : ℝ) →
        (password.length : ℝ) * Real.logb 2 (poolSize password : ℝ) < 36 →
        calculate_strength password = (1, "Fair")) ∧
      ((36 : ℝ) ≤ (password.length : ℝ) * Real.logb 2 (poolSize password : ℝ) →
        (password.length : ℝ) * Real.logb 2 (poolSize password : ℝ) < 60 →
        calculate_strength password = (2, "Good")) ∧
      ((60 : ℝ) ≤ (password.length : ℝ) * Real.logb 2 (poolSize password : ℝ) →
        (password.length : ℝ) * Real.logb 2 (poolSize password : ℝ) < 128 →
        calculate_strength password = (3, "Strong")) ∧
      ((128 : ℝ) ≤ (password.length : ℝ) * Real.logb 2 (poolSize password : ℝ) →
        calculate_strength password = (4, "Very Strong")) := by
  have hpos : 0 < poolSize password := Nat.pos_of_ne_zero hpool
  have key : ∀ T : Nat, poolSize password ^ password.length < 2 ^ T ↔
      (password.length : ℝ) * Real.logb 2 (poolSize password : ℝ) < (T : ℝ) :=
    fun T => pow_lt_two_pow_iff_entropy (poolSize password) password.length T hpos
  have k28 : poolSize password ^ password.length < 2 ^ 28 ↔
      (password.length : ℝ) * Real.logb 2 (poolSize password : ℝ) < (28 : ℝ) := by
    exact_mod_cast key 28
  have k36 : poolSize password ^ password.length < 2 ^ 36 ↔
      (password.length : ℝ) * Real.logb 2 (poolSize password : ℝ) < (36 : ℝ) := by
    exact_mod_cast key 36
  have k60 : poolSize password ^ password.length < 2 ^ 60 ↔
      (password.length : ℝ) * Real.logb 2 (poolSize password : ℝ) < (60 : ℝ) := by
    exact_mod_cast key 60
  have k128 : poolSize password ^ password.length < 2 ^ 128 ↔
      (password.length : ℝ) * Real.logb 2 (poolSize password : ℝ) < (128 : ℝ) := by
    exact_mod_cast key 128
  rw [calculate_strength_nonempty password hne hpool, strengthScore]
  refine ⟨?_, ?_, ?_, ?_, ?_⟩
  · intro h
    rw [if_pos (k28.mpr h)]
  · intro hge hlt
    rw [if_neg (fun hc => absurd (k28.mp hc) (not_lt.mpr hge)), if_pos (k36.mpr hlt)]
  · intro hge hlt
    rw [if_neg (fun hc => absurd (k28.mp hc) (by linarith)),
      if_neg (fun hc => absurd (k36.mp hc) (not_lt.mpr hge)), if_pos (k60.mpr hlt)]
  · intro hge hlt
    rw [if_neg (fun hc => absurd (k28.mp hc) (by linarith)),
      if_neg (fun hc => absurd (k36.mp hc) (by linarith)),
      if_neg (fun hc => absurd (k60.mp hc) (not_lt.mpr hge)), if_pos (k128.mpr hlt)]
  · intro hge
    rw [if_neg (fun hc => absurd (k28.mp hc) (by linarith)),
      if_neg (fun hc => absurd (k36.mp hc) (by linarith)),
      if_neg (fun hc => absurd (k60.mp hc) (by linarith)),
      if_neg (fun hc => absurd (k128.mp hc) (not_lt.mpr hge))]

/-- Witness for C3 at a concrete input: twelve ASCII punctuation characters,
whose entropy is exactly the 60-bit boundary. -/
theorem calculate_strength_thresholds_witness :
    (List.replicate 12 (Char.ofNat 33) : List Char) ≠ [] ∧
      poolSize (List.replicate 12 (Char.ofNat 33)) ≠ 0 ∧
      (((List.replicate 12 (Char.ofNat 33) : List Char).length : ℝ) *
          Real.logb 2 (poolSize (List.replicate 12 (Char.ofNat 33)) : ℝ) < 28 →
        calculate_strength (List.replicate 12 (Char.ofNat 33)) = (0, "Weak")) ∧
      ((28 : ℝ) ≤ ((List.replicate 12 (Char.ofNat 33) : List Char).length : ℝ) *
          Real.logb 2 (poolSize (List.replicate 12 (Char.ofNat 33)) : ℝ) →
        ((List.replicate 12 (Char.ofNat 33) : List Char).length : ℝ) *
          Real.logb 2 (poolSize (List.replicate 12 (Char.ofNat 33)) : ℝ) < 36 →
        calculate_strength (List.replicate 12 (Char.ofNat 33)) = (1, "Fair")) ∧
      ((36 : ℝ) ≤ ((List.replicate 12 (Char.ofNat 33) : List Char).length : ℝ) *
          Real.logb 2 (poolSize (List.replicate 12 (Char.ofNat 33)) : ℝ) →
        ((List.replicate 12 (Char.ofNat 33) : List Char).length : ℝ) *
          Real.logb 2 (poolSize (List.replicate 12 (Char.ofNat 33)) : ℝ) < 60 →
        calculate_strength (List.replicate 12 (Char.ofNat 33)) = (2, "Good")) ∧
      ((60 : ℝ) ≤ ((List.replicate 12 (Char.ofNat 33) : List Char).length : ℝ) *
          Real.logb 2 (poolSize (List.replicate 12 (Char.ofNat 33)) : ℝ) →
        ((List.replicate 12 (Char.ofNat 33) : List Char).length : ℝ) *
          Real.logb 2 (poolSize (List.replicate 12 (Char.ofNat 33)) : ℝ) < 128 →
        calculate_strength (List.replicate 12 (Char.ofNat 33)) = (3, "Strong")) ∧
      ((128 : ℝ) ≤ ((List.replicate 12 (Char.ofNat 33) : List Char).length : ℝ) *
          Real.logb 2 (poolSize (List.replicate 12 (Char.ofNat 33)) : ℝ) →
        calculate_strength (List.replicate 12 (Char.ofNat 33)) = (4, "Very Strong")) :=
  ⟨by decide, by decide,
    calculate_strength_thresholds (List.replicate 12 (Char.ofNat 33)) (by decide) (by decide)⟩

/-- C4 counterexample: the claim says characters outside the four recognized
classes (such as non-Latin letters) contribute to no pool, and that a
password made only of them yields (0, Weak).  Six copies of the Latin-1
capital letter with code point 196 contain no Latin letter, no decimal digit
and no punctuation character, yet the pool is 26 and the result is
(1, Fair). -/
theorem nonlatin_contributes_counterexample :
    (∀ c ∈ pwA6, isLatinUpper c = false ∧ isLatinLower c = false ∧
        isAsciiDigit c = false ∧ punctuation.contains c = false) ∧
      poolSize pwA6 = 26 ∧ calculate_strength pwA6 = (1, "Fair") := by
  decide

/-- C4 amended: characters rejected by all of the Unicode-aware
uppercase/lowercase/digit predicates and outside the ASCII punctuation set
(whitespace, for example) contribute to none of the pools, and a non-empty
password consisting only of such characters yields (0, Weak); non-Latin
letters and non-decimal digit characters accepted by the Python predicates do
contribute. -/
theorem unrecognized_chars_weak (p q : List Char) (hne : p ≠ [])
    (hq : ∀ c ∈ q, pyIsUpper c = false ∧ pyIsLower c = false ∧
      pyIsDigit c = false ∧ punctuation.contains c = false) :
    poolSize (p ++ q) = poolSize p ∧
      ((∀ c ∈ p, pyIsUpper c = false ∧ pyIsLower c = false ∧
          pyIsDigit c = false ∧ punctuation.contains c = false) →
        calculate_strength p = (0, "Weak")) := by
  constructor
  · rw [poolSize_eq, poolSize_eq]
    have hstep : ∀ f : Char → Bool, (∀ c ∈ q, f c = false) →
        (p ++ q).any f = p.any f := by
      intro f hf
      have hfq : q.any f = false := by
        rw [List.any_eq_false]
        intro x hx
        rw [hf x hx]
        exact Bool.false_ne_true
      rw [List.any_append, hfq, Bool.or_false]
    rw [hstep pyIsUpper (fun c hc => (hq c hc).1),
      hstep pyIsLower (fun c hc => (hq c hc).2.1),
      hstep pyIsDigit (fun c hc => (hq c hc).2.2.1),
      hstep (fun c => punctuation.contains c) (fun c hc => (hq c hc).2.2.2)]
  · intro hp
    have hzero : poolSize p = 0 := by
      rw [poolSize_eq,
        List.any_eq_false.mpr (by simpa using fun c hc => (hp c hc).1),
        List.any_eq_false.mpr (by simpa using fun c hc => (hp c hc).2.1),
        List.any_eq_false.mpr (by simpa using fun c hc => (hp c hc).2.2.1),
        List.any_eq_false.mpr (by simpa using fun c hc => (hp c hc).2.2.2)]
      rfl
    rw [calculate_strength, if_neg hne, if_pos hzero]

/-- Witness for C4 at a concrete input: two spaces extended by a tab, all
unrecognized. -/
theorem unrecognized_chars_weak_witness :
    ([' ', ' '] : List Char) ≠ [] ∧
      (∀ c ∈ (['\t'] : List Char), pyIsUpper c = false ∧ pyIsLower c = false ∧
        pyIsDigit c = false ∧ punctuation.contains c = false) ∧
      (poolSize ([' ', ' '] ++ ['\t']) = poolSize [' ', ' '] ∧
        ((∀ c ∈ ([' ', ' '] : List Char), pyIsUpper c = false ∧ pyIsLower c = false ∧
            pyIsDigit c = false ∧ punctuation.contains c = false) →
          calculate_strength [' ', ' '] = (0, "Weak"))) :=
  ⟨by decide, by decide, unrecognized_chars_weak [' ', ' '] ['\t'] (by decide) (by decide)⟩

/-- C9: the generator performs no retries and no recovery: the first failure
of the randomness source propagates to the caller unchanged, and with a
never-failing source the fallible model returns exactly the result of the
infallible one (no substitution of a different source). -/
theorem generateE_failure_propagation {ε : Type} (length : Int) (u l n s : Bool)
    (r : Nat → Except ε Nat) (j : Nat) (e : ε)
    (hcls : (u || l || n || s) = true) (hj : j < length.toNat)
    (hfail : r j = Except.error e) (hok : ∀ i, i < j → ∃ k, r i = Except.ok k) :
    generateE length u l n s r = Except.error e ∧
      ∀ r0 : Nat → Nat, generateE (ε := ε) length u l n s (fun i => Except.ok (r0 i)) =
        Except.ok (generate length u l n s r0) := by
  have hguard : (!(u || l || n || s)) = false := by rw [hcls]; rfl
  constructor
  · rw [generateE, hguard, if_neg (by decide), range_decomp j length.toNat hj]
    exact mapDrawE_first_error _ r j e hfail _ _
      (fun i hi => hok i (List.mem_range.mp hi))
  · intro r0
    rw [generateE, generate, hguard, if_neg (by decide), if_neg (by decide),
      mapDrawE_ok_map]

/-- Witness for C9 at a concrete input: length 2, all classes, an oracle
whose first draw succeeds and whose second raises error 7. -/
theorem generateE_failure_propagation_witness :
    ((true || true || true || true) = true) ∧ (1 < (2 : Int).toNat) ∧
      rFail 1 = Except.error 7 ∧ (∀ i, i < 1 → ∃ k, rFail i = Except.ok k) ∧
      (generateE 2 true true true true rFail = Except.error 7 ∧
        ∀ r0 : Nat → Nat, generateE (ε := Nat) 2 true true true true
            (fun i => Except.ok (r0 i)) = Except.ok (generate 2 true true true true r0)) :=
  ⟨rfl, by decide, rfl,
    fun i hi => by
      have h0 : i = 0 := Nat.lt_one_iff.mp hi
      subst h0
      exact ⟨0, rfl⟩,
    generateE_failure_propagation 2 true true true true rFail 1 7 rfl (by decide) rfl
      (fun i hi => by
        have h0 : i = 0 := Nat.lt_one_iff.mp hi
        subst h0
        exact ⟨0, rfl⟩)⟩

/-- C10: the strength score is monotone under appending a character: the
score of the extended password is at least the score of the original. -/
theorem calculate_strength_score_monotone (p : List Char) (c : Char) :
    (calculate_strength p).1 ≤ (calculate_strength (p ++ [c])).1 := by
  by_cases hp : p = []
  · subst hp
    rw [calculate_strength, if_pos rfl]
    exact Nat.zero_le _
  · by_cases hpool : poolSize p = 0
    · rw [calculate_strength, if_neg hp, if_pos hpool]
      exact Nat.zero_le _
    · have hq : p ++ [c] ≠ [] := by
        simp
      have hle : poolSize p ≤ poolSize (p ++ [c]) := poolSize_le_append p [c]
      have hpoolq : poolSize (p ++ [c]) ≠ 0 := by omega
      rw [calculate_strength_nonempty p hp hpool,
        calculate_strength_nonempty (p ++ [c]) hq hpoolq]
      apply strengthScore_fst_mono
      have hposq : 1 ≤ poolSize (p ++ [c]) := by omega
      have hlen : (p ++ [c]).length = p.length + 1 := by
        rw [List.length_append, List.length_cons, List.length_nil]
      calc poolSize p ^ p.length
          ≤ poolSize (p ++ [c]) ^ p.length := Nat.pow_le_pow_left hle p.length
        _ ≤ poolSize (p ++ [c]) ^ (p.length + 1) :=
            Nat.pow_le_pow_right hposq (Nat.le_succ p.length)
        _ = poolSize (p ++ [c]) ^ (p ++ [c]).length := by rw [hlen]

end PasswordGenerator
